import Mathlib

/-!
Shallow embedding of the flash-algorithm execution engine of
`src/probe/src/flash/flasher.rs` and of the supervision loop of
`src/probe-rs/src/bin/probe-rs/cmd/run.rs`.

Machine integers (`u32`) are modelled as `Nat`; wherever the Rust code
performs a narrowing cast or wrapping arithmetic, an explicit `% 2^32`
appears.  Transport side effects (block writes, core-register writes,
run, wait-for-halt, register reads) are recorded as an explicit event
trace; the status code the algorithm leaves in R0 after halting is an
oracle parameter `status` supplied by the caller of the model, standing
for what the mock/real target would return.  A Rust `panic!` (slice
index out of bounds, remainder by zero) is modelled by the `Outcome.panic`
constructor and an empty remaining trace.
-/

namespace ProbeRs

/-- Modulus of the 32-bit machine integers (`u32`) used by the flasher. -/
def U32_MOD : Nat := 2 ^ 32

/-- Core registers named by `basic_register_addresses` (PC, R0..R3, R9, SP, LR). -/
inductive Reg where
  | PC | R0 | R1 | R2 | R3 | R9 | SP | LR
  deriving DecidableEq, Repr

/-- One observable transport operation issued by the flasher. -/
inductive Event where
  | writeBlock32 (address : Nat) (data : List Nat)
  | writeBlock8 (address : Nat) (data : List Nat)
  | writeCoreReg (reg : Reg) (value : Nat)
  | run
  | waitForHalted
  | readCoreReg (reg : Reg)
  deriving DecidableEq, Repr

/-- The `FlashAlgorithm` descriptor (flasher.rs, lines 16-49). -/
structure FlashAlgorithm where
  load_address : Nat
  instructions : List Nat
  pc_init : Option Nat
  pc_uninit : Option Nat
  pc_program_page : Nat
  pc_erase_sector : Nat
  pc_erase_all : Option Nat
  static_base : Nat
  begin_stack : Nat
  begin_data : Nat
  page_buffers : List Nat
  min_program_length : Option Nat
  analyzer_supported : Bool
  analyzer_address : Nat
  deriving DecidableEq, Repr

/-- The fields of `FlashRegion` that flasher.rs reads (geometry only;
the planner weight fields are never used by the embedded operations). -/
structure FlashRegion where
  range_start : Nat
  range_end : Nat
  sector_size : Nat
  page_size : Nat
  deriving DecidableEq, Repr

/-- The `Operation` phantom tag: `Erase`, `Program`, `Verify` (flasher.rs, lines 51-71). -/
inductive Op where
  | Erase | Program | Verify
  deriving DecidableEq, Repr

/-- The `Operation::operation()` discriminant: Erase=1, Program=2, Verify=3. -/
def Op.operation : Op → Nat
  | .Erase => 1
  | .Program => 2
  | .Verify => 3

/-- The `FlasherError` enumeration (flasher.rs, lines 73-84). -/
inductive FlasherError where
  | Init (code : Nat)
  | Uninit (code : Nat)
  | EraseAll (code : Nat)
  | EraseAllNotSupported
  | EraseSector (code : Nat) (address : Nat)
  | ProgramPage (code : Nat) (address : Nat)
  | InvalidBufferNumber (buffer_number : Nat) (capacity : Nat)
  | UnalignedFlashWriteAddress
  | UnalignedPhraseLength
  | ProgramPhrase (code : Nat) (address : Nat)
  deriving DecidableEq, Repr

instance {ε α : Type} [DecidableEq ε] [DecidableEq α] : DecidableEq (Except ε α) := fun a b =>
  match a, b with
  | .ok x, .ok y =>
    if h : x = y then isTrue (by rw [h]) else isFalse (fun hh => h (by injection hh))
  | .ok _, .error _ => isFalse (fun hh => Except.noConfusion hh)
  | .error _, .ok _ => isFalse (fun hh => Except.noConfusion hh)
  | .error e, .error f =>
    if h : e = f then isTrue (by rw [h]) else isFalse (fun hh => h (by injection hh))

/-- Result of a flasher primitive that may also abort by a Rust `panic`
(out-of-bounds slice index, remainder by zero). -/
inductive Outcome where
  | ok
  | err (e : FlasherError)
  | panic
  deriving DecidableEq, Repr

/-- One slot of the register frame of `call_function`: the register is
written exactly when a value is provided, otherwise left as-is. -/
def regWrite (reg : Reg) (value : Option Nat) : List Event :=
  match value with
  | some v => [Event.writeCoreReg reg v]
  | none => []

/-- `call_function` (flasher.rs, lines 163-181): install the register frame
in order PC, R0..R3, R9 (init only), SP (init only), LR = `load_address + 1`
(wrapping u32 addition), skipping omitted operands, then `run()`. -/
def call_function (algo : FlashAlgorithm) (pc : Nat) (r0 r1 r2 r3 : Option Nat)
    (init : Bool) : List Event :=
  regWrite Reg.PC (some pc) ++
  regWrite Reg.R0 r0 ++
  regWrite Reg.R1 r1 ++
  regWrite Reg.R2 r2 ++
  regWrite Reg.R3 r3 ++
  regWrite Reg.R9 (if init then some algo.static_base else none) ++
  regWrite Reg.SP (if init then some algo.begin_stack else none) ++
  regWrite Reg.LR (some ((algo.load_address + 1) % U32_MOD)) ++
  [Event.run]

/-- `wait_for_completion` (flasher.rs, lines 183-189): busy-wait until halted,
then read R0; the value the target left in R0 is the oracle `status`. -/
def wait_for_completion (status : Nat) : List Event × Nat :=
  ([Event.waitForHalted, Event.readCoreReg Reg.R0], status)

/-- `call_function_and_wait` (flasher.rs, lines 158-161). -/
def call_function_and_wait (algo : FlashAlgorithm) (pc : Nat)
    (r0 r1 r2 r3 : Option Nat) (init : Bool) (status : Nat) : List Event × Nat :=
  (call_function algo pc r0 r1 r2 r3 init ++ (wait_for_completion status).1,
   (wait_for_completion status).2)

/-- `InactiveFlasher::init::<O>` (flasher.rs, lines 91-125): stage the
instruction words at `load_address`, then, when `pc_init` is present, invoke
it with `r0 = address`, `r1 = clock`, `r2 = Some(O::operation())`, `init=true`;
a nonzero status fails with `Init(code)`, otherwise the `Active` flasher is
produced (modelled `Except.ok ()`). -/
def InactiveFlasher.init (op : Op) (algo : FlashAlgorithm) (region : FlashRegion)
    (address clock : Option Nat) (status : Nat) : List Event × Except FlasherError Unit :=
  let stage : List Event := [Event.writeBlock32 algo.load_address algo.instructions]
  match algo.pc_init with
  | some pc_init =>
    let cw := call_function_and_wait algo pc_init address clock (some op.operation) none true status
    (stage ++ cw.1,
     if cw.2 ≠ 0 then Except.error (FlasherError.Init cw.2) else Except.ok ())
  | none => (stage, Except.ok ())

/-- `ActiveFlasher::uninit` (flasher.rs, lines 135-156): when `pc_uninit` is
present, invoke it with `r0 = Some(O::operation())`, `init=false`; a nonzero
status returns `Err(Uninit(code))` (no `InactiveFlasher` is produced), zero
status produces the `InactiveFlasher` (modelled `Except.ok ()`). -/
def ActiveFlasher.uninit (op : Op) (algo : FlashAlgorithm) (status : Nat) :
    List Event × Except FlasherError Unit :=
  match algo.pc_uninit with
  | some pc_uninit =>
    let cw := call_function_and_wait algo pc_uninit (some op.operation) none none none false status
    (cw.1,
     if cw.2 ≠ 0 then Except.error (FlasherError.Uninit cw.2) else Except.ok ())
  | none => ([], Except.ok ())

/-- `ActiveFlasher::<Erase>::erase_all` (flasher.rs, lines 193-214). -/
def erase_all (algo : FlashAlgorithm) (status : Nat) :
    List Event × Except FlasherError Unit :=
  match algo.pc_erase_all with
  | some pc_erase_all =>
    let cw := call_function_and_wait algo pc_erase_all none none none none false status
    (cw.1,
     if cw.2 ≠ 0 then Except.error (FlasherError.EraseAll cw.2) else Except.ok ())
  | none => ([], Except.error FlasherError.EraseAllNotSupported)

/-- `ActiveFlasher::<Erase>::erase_sector` (flasher.rs, lines 216-233). -/
def erase_sector (algo : FlashAlgorithm) (address : Nat) (status : Nat) :
    List Event × Except FlasherError Unit :=
  let cw := call_function_and_wait algo algo.pc_erase_sector (some address) none none none false status
  (cw.1,
   if cw.2 ≠ 0 then Except.error (FlasherError.EraseSector cw.2 address) else Except.ok ())

/-- `ActiveFlasher::<Program>::program_page` (flasher.rs, lines 237-259):
write the bytes to `begin_data`, then invoke `pc_program_page` with
`R0 = address`, `R1 = bytes.len() as u32`, `R2 = begin_data`, `init=false`. -/
def program_page (algo : FlashAlgorithm) (address : Nat) (bytes : List Nat)
    (status : Nat) : List Event × Except FlasherError Unit :=
  let stage : List Event := [Event.writeBlock8 algo.begin_data bytes]
  let cw := call_function_and_wait algo algo.pc_program_page (some address)
    (some (bytes.length % U32_MOD)) (some algo.begin_data) none false status
  (stage ++ cw.1,
   if cw.2 ≠ 0 then Except.error (FlasherError.ProgramPage cw.2 address) else Except.ok ())

/-- `ActiveFlasher::<Program>::start_program_page_with_buffer` (flasher.rs,
lines 261-279): the source guard is `buffer_number < page_buffers.len() as u32`
(an inverted check), and on passing the guard it indexes
`page_buffers[buffer_number]`, which panics when out of bounds. -/
def start_program_page_with_buffer (algo : FlashAlgorithm) (region : FlashRegion)
    (address : Nat) (buffer_number : Nat) : List Event × Outcome :=
  if buffer_number < algo.page_buffers.length % U32_MOD then
    ([], Outcome.err
      (FlasherError.InvalidBufferNumber buffer_number (algo.page_buffers.length % U32_MOD)))
  else
    match algo.page_buffers.get? buffer_number with
    | some base =>
      (call_function algo algo.pc_program_page (some address) (some region.page_size)
        (some base) none false, Outcome.ok)
    | none => ([], Outcome.panic)

/-- `ActiveFlasher::<Program>::load_page_buffer` (flasher.rs, lines 281-295):
same inverted guard as `start_program_page_with_buffer`, then writes the bytes
to `page_buffers[buffer_number]` (panics when the index is out of bounds). -/
def load_page_buffer (algo : FlashAlgorithm) (address : Nat) (bytes : List Nat)
    (buffer_number : Nat) : List Event × Outcome :=
  if buffer_number < algo.page_buffers.length % U32_MOD then
    ([], Outcome.err
      (FlasherError.InvalidBufferNumber buffer_number (algo.page_buffers.length % U32_MOD)))
  else
    match algo.page_buffers.get? buffer_number with
    | some base => ([Event.writeBlock8 base bytes], Outcome.ok)
    | none => ([], Outcome.panic)

/-- `ActiveFlasher::<Program>::program_phrase` (flasher.rs, lines 297-334):
`min_len = min_program_length.unwrap_or(page_size)`; `address % min_len` and
`bytes.len() as u32 % min_len` panic when `min_len = 0` (Rust remainder by
zero), modelled by `Outcome.panic`; unaligned address/length fail before any
transport call; otherwise as `program_page` with errors tagged `ProgramPhrase`. -/
def program_phrase (algo : FlashAlgorithm) (region : FlashRegion) (address : Nat)
    (bytes : List Nat) (status : Nat) : List Event × Outcome :=
  let min_len := algo.min_program_length.getD region.page_size
  if min_len = 0 then ([], Outcome.panic)
  else if address % min_len ≠ 0 then ([], Outcome.err FlasherError.UnalignedFlashWriteAddress)
  else if bytes.length % U32_MOD % min_len ≠ 0 then
    ([], Outcome.err FlasherError.UnalignedPhraseLength)
  else
    let stage : List Event := [Event.writeBlock8 algo.begin_data bytes]
    let cw := call_function_and_wait algo algo.pc_program_page (some address)
      (some (bytes.length % U32_MOD)) (some algo.begin_data) none false status
    (stage ++ cw.1,
     if cw.2 ≠ 0 then Outcome.err (FlasherError.ProgramPhrase cw.2 address) else Outcome.ok)

/-- One batch of data returned by `poll_rtt_fallible` for one RTT channel
(run.rs, lines 213-228): the channel number and the bytes read this poll. -/
structure RttRead where
  channel : Nat
  data : List Nat
  deriving DecidableEq, Repr

/-- `poll_rtt` (run.rs, lines 213-228): when attached, fold over the channel
reads, raising `had_data` on any non-empty payload and appending every payload
to standard output; when not attached, no data.  Returns
(`had_data`, bytes written to stdout). -/
def poll_rtt (rtta : Option (List RttRead)) : Bool × List Nat :=
  match rtta with
  | none => (false, [])
  | some reads =>
    reads.foldl (fun acc r => (acc.1 || !r.data.isEmpty, acc.2 ++ r.data)) (false, [])

/-- Outcome of one iteration of the `run_loop` while-loop (run.rs, lines
114-130): the loop exits when the SIGINT flag is observed, returns
"target halted" when `poll_stacktrace` sees a halted core, and otherwise
sleeps 1 ms or 100 ms. -/
inductive IterStep where
  | exitLoop
  | targetHalted
  | sleep (ms : Nat)
  deriving DecidableEq, Repr

/-- One iteration of `run_loop` (run.rs, lines 114-130): check the exit flag,
poll RTT, check for a halted core, then sleep 1 ms when this iteration's RTT
poll produced data and 100 ms otherwise.  `rtta` carries the channel reads the
poll would return (`none` = not attached); `coreHalted` is whether
`core.status()` reports `Halted`. -/
def run_loop_iteration (exitFlag : Bool) (rtta : Option (List RttRead))
    (coreHalted : Bool) : IterStep :=
  if exitFlag then IterStep.exitLoop
  else
    let had_rtt_data := (poll_rtt rtta).1
    if coreHalted then IterStep.targetHalted
    else if had_rtt_data then IterStep.sleep 1
    else IterStep.sleep 100

/-- A small concrete algorithm descriptor used to instantiate theorems. -/
def baseAlgo : FlashAlgorithm :=
  { load_address := 0x20000000
    instructions := [0x2780b5f0, 0x25004684]
    pc_init := none
    pc_uninit := none
    pc_program_page := 0x20000004
    pc_erase_sector := 0x20000008
    pc_erase_all := none
    static_base := 0x20001000
    begin_stack := 0x20002000
    begin_data := 0x20003000
    page_buffers := []
    min_program_length := none
    analyzer_supported := false
    analyzer_address := 0 }

/-- A small concrete flash region used to instantiate theorems. -/
def region0 : FlashRegion :=
  { range_start := 0x08000000
    range_end := 0x08100000
    sector_size := 0x1000
    page_size := 0x400 }

/-- `baseAlgo` with two page buffers. -/
def algoTwoBuffers : FlashAlgorithm :=
  { baseAlgo with page_buffers := [0x20003000, 0x20003400] }

/-- `baseAlgo` with an `Init` entry point. -/
def algoInit : FlashAlgorithm :=
  { baseAlgo with pc_init := some 0x20000080 }

/-- `baseAlgo` with an `UnInit` entry point. -/
def algoUninit : FlashAlgorithm :=
  { baseAlgo with pc_uninit := some 0x20000090 }

/-- `baseAlgo` with an odd load address (separates `load_address + 1`
from `load_address ||| 1`). -/
def algoOddLoad : FlashAlgorithm :=
  { baseAlgo with load_address := 1 }

/-- Membership of a register write in one frame slot: the slot writes
exactly its own register, and only when a value is provided. -/
theorem mem_regWrite {reg reg2 : Reg} {v : Nat} {o : Option Nat} :
    Event.writeCoreReg reg v ∈ regWrite reg2 o ↔ reg = reg2 ∧ o = some v := by
  cases o <;> simp [regWrite] <;> aesop

/-- Every event of a frame slot is a write of that slot's register. -/
theorem events_of_mem_regWrite {e : Event} {reg : Reg} {o : Option Nat}
    (h : e ∈ regWrite reg o) : ∃ v, e = Event.writeCoreReg reg v := by
  cases o with
  | none => simp [regWrite] at h
  | some a => simp [regWrite] at h; exact ⟨a, h⟩

/-- Characterisation of the register writes of a `call_function` frame. -/
theorem mem_call_function {algo : FlashAlgorithm} {pc : Nat} {r0 r1 r2 r3 : Option Nat}
    {init : Bool} {reg : Reg} {v : Nat} :
    Event.writeCoreReg reg v ∈ call_function algo pc r0 r1 r2 r3 init ↔
      (reg = Reg.PC ∧ v = pc) ∨
      (reg = Reg.R0 ∧ r0 = some v) ∨
      (reg = Reg.R1 ∧ r1 = some v) ∨
      (reg = Reg.R2 ∧ r2 = some v) ∨
      (reg = Reg.R3 ∧ r3 = some v) ∨
      (reg = Reg.R9 ∧ init = true ∧ v = algo.static_base) ∨
      (reg = Reg.SP ∧ init = true ∧ v = algo.begin_stack) ∨
      (reg = Reg.LR ∧ v = (algo.load_address + 1) % U32_MOD) := by
  cases init <;> simp [call_function, mem_regWrite] <;> aesop

/-- A `call_function` trace holds only register writes and the final `run`. -/
theorem call_function_events {algo : FlashAlgorithm} {pc : Nat}
    {r0 r1 r2 r3 : Option Nat} {init : Bool} {e : Event}
    (he : e ∈ call_function algo pc r0 r1 r2 r3 init) :
    e = Event.run ∨ ∃ reg v, e = Event.writeCoreReg reg v := by
  simp only [call_function, List.mem_append, List.mem_singleton] at he
  rcases he with ((((((((h | h) | h) | h) | h) | h) | h) | h) | h)
  all_goals first
    | (obtain ⟨v, rfl⟩ := events_of_mem_regWrite h; exact Or.inr ⟨_, _, rfl⟩)
    | exact Or.inl h

/-- C1: the buffer-number guard in the source is inverted.  With two page
buffers, the valid index 0 is rejected with `InvalidBufferNumber(0, 2)` by
both `load_page_buffer` and `start_program_page_with_buffer` (with no memory
write), while the out-of-range index 5 passes the guard and panics on the
slice index. -/
theorem c1_buffer_guard_inverted :
    load_page_buffer algoTwoBuffers 0x08001000 [0xAA] 0
      = ([], Outcome.err (FlasherError.InvalidBufferNumber 0 2)) ∧
    start_program_page_with_buffer algoTwoBuffers region0 0x08001000 0
      = ([], Outcome.err (FlasherError.InvalidBufferNumber 0 2)) ∧
    load_page_buffer algoTwoBuffers 0x08001000 [0xAA] 5 = ([], Outcome.panic) ∧
    start_program_page_with_buffer algoTwoBuffers region0 0x08001000 5
      = ([], Outcome.panic) := by
  decide

/-- C9: the success path of `load_page_buffer` and
`start_program_page_with_buffer` is unreachable: an index below the buffer
count is rejected with `InvalidBufferNumber`, an index at or above it panics
on the out-of-bounds slice access, and neither function ever returns `ok`. -/
theorem c9_page_buffer_success_unreachable (algo : FlashAlgorithm)
    (region : FlashRegion) (address : Nat) (bytes : List Nat) (n : Nat)
    (hlen : algo.page_buffers.length < U32_MOD) :
    (n < algo.page_buffers.length →
      (load_page_buffer algo address bytes n).2
        = Outcome.err (FlasherError.InvalidBufferNumber n algo.page_buffers.length) ∧
      (start_program_page_with_buffer algo region address n).2
        = Outcome.err (FlasherError.InvalidBufferNumber n algo.page_buffers.length)) ∧
    (algo.page_buffers.length ≤ n →
      (load_page_buffer algo address bytes n).2 = Outcome.panic ∧
      (start_program_page_with_buffer algo region address n).2 = Outcome.panic) ∧
    (load_page_buffer algo address bytes n).2 ≠ Outcome.ok ∧
    (start_program_page_with_buffer algo region address n).2 ≠ Outcome.ok := by
  have hmod : algo.page_buffers.length % U32_MOD = algo.page_buffers.length :=
    Nat.mod_eq_of_lt hlen
  by_cases h : n < algo.page_buffers.length
  · simp [load_page_buffer, start_program_page_with_buffer, hmod, h, Nat.not_le.mpr h]
  · have hge : algo.page_buffers.length ≤ n := Nat.le_of_not_lt h
    have hnone : algo.page_buffers[n]? = none := List.getElem?_eq_none hge
    simp [load_page_buffer, start_program_page_with_buffer, hmod, h, hnone]

/-- C9 witness: with two page buffers, index 7 panics and does not succeed. -/
theorem c9_witness :
    (load_page_buffer algoTwoBuffers 0x08001000 [0xAA] 7).2 = Outcome.panic ∧
    (load_page_buffer algoTwoBuffers 0x08001000 [0xAA] 7).2 ≠ Outcome.ok := by
  have h := c9_page_buffer_success_unreachable algoTwoBuffers region0 0x08001000
    [0xAA] 7 (by decide)
  exact ⟨(h.2.1 (by decide)).1, h.2.2.1⟩

/-- C2 counterexample: with `address = none` (and zero status), the init trace
contains no R0 write at all — in particular R0 is not written as 0, contrary
to `R0 = address.unwrap_or(0)`. -/
theorem c2_counterexample :
    Event.writeCoreReg Reg.R0 0
      ∉ (InactiveFlasher.init Op.Erase algoInit region0 none none 0).1 := by
  decide

/-- C2 (amended): when `pc_init` is present, `init` invokes the algorithm at
`pc_init` with `init=true` (R9 and SP written from the descriptor) and
`R2 = Op::operation()`; R0 is written with value `v` exactly when
`address = some v`, and likewise R1 for `clock` — a `None` address or clock
leaves the corresponding register unwritten rather than writing 0. -/
theorem c2_init_frame (op : Op) (algo : FlashAlgorithm) (region : FlashRegion)
    (address clock : Option Nat) (status : Nat) (pc : Nat)
    (h : algo.pc_init = some pc) :
    Event.writeCoreReg Reg.PC pc
        ∈ (InactiveFlasher.init op algo region address clock status).1 ∧
    Event.writeCoreReg Reg.R2 op.operation
        ∈ (InactiveFlasher.init op algo region address clock status).1 ∧
    Event.writeCoreReg Reg.R9 algo.static_base
        ∈ (InactiveFlasher.init op algo region address clock status).1 ∧
    Event.writeCoreReg Reg.SP algo.begin_stack
        ∈ (InactiveFlasher.init op algo region address clock status).1 ∧
    (∀ v, Event.writeCoreReg Reg.R0 v
        ∈ (InactiveFlasher.init op algo region address clock status).1 ↔ address = some v) ∧
    (∀ v, Event.writeCoreReg Reg.R1 v
        ∈ (InactiveFlasher.init op algo region address clock status).1 ↔ clock = some v) := by
  simp only [InactiveFlasher.init, h, call_function_and_wait, wait_for_completion]
  simp [List.mem_append, mem_call_function]

/-- C2 witness: with `address = some 5` and the Erase tag, the init frame
writes R2 = 1 and R0 = 5. -/
theorem c2_witness :
    Event.writeCoreReg Reg.R2 1
        ∈ (InactiveFlasher.init Op.Erase algoInit region0 (some 5) none 0).1 ∧
    Event.writeCoreReg Reg.R0 5
        ∈ (InactiveFlasher.init Op.Erase algoInit region0 (some 5) none 0).1 := by
  have h := c2_init_frame Op.Erase algoInit region0 (some 5) none 0 0x20000080 rfl
  exact ⟨h.2.1, (h.2.2.2.2.1 5).mpr rfl⟩

/-- C3 counterexample: a nonzero uninit status makes `uninit` return
`Err(Uninit 5)`; no `InactiveFlasher` is produced (the `ok` transition does
not happen), contrary to "the session still transitions back to Inactive". -/
theorem c3_counterexample :
    (ActiveFlasher.uninit Op.Program algoUninit 5).2
        = Except.error (FlasherError.Uninit 5) ∧
    (ActiveFlasher.uninit Op.Program algoUninit 5).2 ≠ Except.ok () := by
  decide

/-- C3 (amended): when `pc_uninit` is present, `uninit` invokes it with
`R0 = Op::operation()` and `init=false` (no R9 or SP write); a nonzero status
fails with `Uninit(code)` and aborts the transition (no Inactive flasher is
produced), while a zero status produces the Inactive flasher. -/
theorem c3_uninit (op : Op) (algo : FlashAlgorithm) (status : Nat) (pc : Nat)
    (h : algo.pc_uninit = some pc) :
    Event.writeCoreReg Reg.PC pc ∈ (ActiveFlasher.uninit op algo status).1 ∧
    Event.writeCoreReg Reg.R0 op.operation ∈ (ActiveFlasher.uninit op algo status).1 ∧
    (∀ v, Event.writeCoreReg Reg.R9 v ∉ (ActiveFlasher.uninit op algo status).1) ∧
    (∀ v, Event.writeCoreReg Reg.SP v ∉ (ActiveFlasher.uninit op algo status).1) ∧
    (status ≠ 0 → (ActiveFlasher.uninit op algo status).2
        = Except.error (FlasherError.Uninit status)) ∧
    (status = 0 → (ActiveFlasher.uninit op algo status).2 = Except.ok ()) := by
  simp only [ActiveFlasher.uninit, h, call_function_and_wait, wait_for_completion]
  refine ⟨?_, ?_, ?_, ?_, ?_, ?_⟩
  · simp [List.mem_append, mem_call_function]
  · simp [List.mem_append, mem_call_function]
  · intro v; simp [List.mem_append, mem_call_function]
  · intro v; simp [List.mem_append, mem_call_function]
  · intro hs; simp [hs]
  · intro hs; simp [hs]

/-- C3 witness: with a zero uninit status, the trace writes PC and
R0 = 2 (Program), and the Inactive flasher is produced. -/
theorem c3_witness :
    Event.writeCoreReg Reg.R0 2 ∈ (ActiveFlasher.uninit Op.Program algoUninit 0).1 ∧
    (ActiveFlasher.uninit Op.Program algoUninit 0).2 = Except.ok () := by
  have h := c3_uninit Op.Program algoUninit 0 0x20000090 rfl
  exact ⟨h.2.1, h.2.2.2.2.2 rfl⟩

/-- C4 counterexample: with `load_address = 1`, the frame writes
LR = 2 (`load_address + 1`), not `load_address ||| 1 = 1`. -/
theorem c4_counterexample :
    Event.writeCoreReg Reg.LR (1 ||| 1)
        ∉ call_function algoOddLoad 0x20000080 none none none none true ∧
    Event.writeCoreReg Reg.LR 2
        ∈ call_function algoOddLoad 0x20000080 none none none none true := by
  decide

/-- C4 (amended): every `call_function` trace is a sequence of register writes
followed by the single `run()`; with `init=true` the writes include
R9 = `static_base`, SP = `begin_stack`, and always PC = the entry point and
LR = `load_address + 1` (wrapping u32 addition, which equals
`load_address ||| 1` exactly when `load_address` is even); with `init=false`
R9 and SP are never written. -/
theorem c4_call_function_frame (algo : FlashAlgorithm) (pc : Nat)
    (r0 r1 r2 r3 : Option Nat) (init : Bool) :
    ∃ ws, call_function algo pc r0 r1 r2 r3 init = ws ++ [Event.run] ∧
      (∀ e ∈ ws, ∃ reg v, e = Event.writeCoreReg reg v) ∧
      Event.writeCoreReg Reg.PC pc ∈ ws ∧
      Event.writeCoreReg Reg.LR ((algo.load_address + 1) % U32_MOD) ∈ ws ∧
      (init = true → Event.writeCoreReg Reg.R9 algo.static_base ∈ ws ∧
        Event.writeCoreReg Reg.SP algo.begin_stack ∈ ws) ∧
      (init = false → (∀ v, Event.writeCoreReg Reg.R9 v ∉ ws) ∧
        (∀ v, Event.writeCoreReg Reg.SP v ∉ ws)) := by
  refine ⟨regWrite Reg.PC (some pc) ++ regWrite Reg.R0 r0 ++ regWrite Reg.R1 r1 ++
    regWrite Reg.R2 r2 ++ regWrite Reg.R3 r3 ++
    regWrite Reg.R9 (if init then some algo.static_base else none) ++
    regWrite Reg.SP (if init then some algo.begin_stack else none) ++
    regWrite Reg.LR (some ((algo.load_address + 1) % U32_MOD)), ?_, ?_, ?_, ?_, ?_, ?_⟩
  · simp [call_function, List.append_assoc]
  · intro e he
    simp only [List.mem_append] at he
    rcases he with (((((((h | h) | h) | h) | h) | h) | h) | h) <;>
      (obtain ⟨v, rfl⟩ := events_of_mem_regWrite h; exact ⟨_, _, rfl⟩)
  · simp [List.mem_append, mem_regWrite]
  · simp [List.mem_append, mem_regWrite]
  · intro hi; subst hi; simp [List.mem_append, mem_regWrite]
  · intro hi; subst hi; simp [List.mem_append, mem_regWrite]

/-- C4 witness: a closed instance of the frame-shape theorem. -/
theorem c4_witness :
    ∃ ws, call_function baseAlgo 0x20000080 (some 1) none none none true
        = ws ++ [Event.run] ∧
      (∀ e ∈ ws, ∃ reg v, e = Event.writeCoreReg reg v) ∧
      Event.writeCoreReg Reg.PC 0x20000080 ∈ ws ∧
      Event.writeCoreReg Reg.LR ((baseAlgo.load_address + 1) % U32_MOD) ∈ ws ∧
      (true = true → Event.writeCoreReg Reg.R9 baseAlgo.static_base ∈ ws ∧
        Event.writeCoreReg Reg.SP baseAlgo.begin_stack ∈ ws) ∧
      (true = false → (∀ v, Event.writeCoreReg Reg.R9 v ∉ ws) ∧
        (∀ v, Event.writeCoreReg Reg.SP v ∉ ws)) :=
  c4_call_function_frame baseAlgo 0x20000080 (some 1) none none none true

/-- C5: `program_page` first writes the byte block to `begin_data` (the head
of the trace, before any register-frame write; no other block write follows),
then invokes `pc_program_page` with R0 = address, R1 = the byte count,
R2 = `begin_data`, and fails with `ProgramPage(code, addr)` exactly when the
returned status is nonzero. -/
theorem c5_program_page (algo : FlashAlgorithm) (address : Nat) (bytes : List Nat)
    (status : Nat) (hlen : bytes.length < U32_MOD) :
    ∃ rest,
      (program_page algo address bytes status).1
        = Event.writeBlock8 algo.begin_data bytes :: rest ∧
      Event.writeCoreReg Reg.PC algo.pc_program_page ∈ rest ∧
      Event.writeCoreReg Reg.R0 address ∈ rest ∧
      Event.writeCoreReg Reg.R1 bytes.length ∈ rest ∧
      Event.writeCoreReg Reg.R2 algo.begin_data ∈ rest ∧
      (∀ a d, Event.writeBlock8 a d ∉ rest) ∧
      ((program_page algo address bytes status).2
          = Except.error (FlasherError.ProgramPage status address) ↔ status ≠ 0) ∧
      (status = 0 → (program_page algo address bytes status).2 = Except.ok ()) := by
  have hmod : bytes.length % U32_MOD = bytes.length := Nat.mod_eq_of_lt hlen
  refine ⟨call_function algo algo.pc_program_page (some address)
      (some (bytes.length % U32_MOD)) (some algo.begin_data) none false
      ++ [Event.waitForHalted, Event.readCoreReg Reg.R0], ?_, ?_, ?_, ?_, ?_, ?_, ?_, ?_⟩
  · simp [program_page, call_function_and_wait, wait_for_completion]
  · simp [List.mem_append, mem_call_function]
  · simp [List.mem_append, mem_call_function]
  · simp [List.mem_append, mem_call_function, hmod]
  · simp [List.mem_append, mem_call_function]
  · intro a d
    simp only [List.mem_append]
    rintro (h | h)
    · rcases call_function_events h with h | ⟨reg, v, h⟩ <;> exact Event.noConfusion h
    · simp at h
  · by_cases hs : status = 0 <;> simp [program_page, call_function_and_wait,
      wait_for_completion, hs]
  · intro hs; simp [program_page, call_function_and_wait, wait_for_completion, hs]

/-- C5 witness: a concrete failing program of 4 bytes at `0x08001000` with
status `0xDEAD`. -/
theorem c5_witness :
    ∃ rest,
      (program_page baseAlgo 0x08001000 [0xAA, 0xAA, 0xAA, 0xAA] 0xDEAD).1
        = Event.writeBlock8 baseAlgo.begin_data [0xAA, 0xAA, 0xAA, 0xAA] :: rest ∧
      Event.writeCoreReg Reg.PC baseAlgo.pc_program_page ∈ rest ∧
      Event.writeCoreReg Reg.R0 0x08001000 ∈ rest ∧
      Event.writeCoreReg Reg.R1 4 ∈ rest ∧
      Event.writeCoreReg Reg.R2 baseAlgo.begin_data ∈ rest ∧
      (∀ a d, Event.writeBlock8 a d ∉ rest) ∧
      ((program_page baseAlgo 0x08001000 [0xAA, 0xAA, 0xAA, 0xAA] 0xDEAD).2
          = Except.error (FlasherError.ProgramPage 0xDEAD 0x08001000) ↔ (0xDEAD : Nat) ≠ 0) ∧
      ((0xDEAD : Nat) = 0 →
        (program_page baseAlgo 0x08001000 [0xAA, 0xAA, 0xAA, 0xAA] 0xDEAD).2
          = Except.ok ()) :=
  c5_program_page baseAlgo 0x08001000 [0xAA, 0xAA, 0xAA, 0xAA] 0xDEAD (by decide)

/-- C6: with `min = min_program_length.unwrap_or(page_size)` nonzero, a
misaligned address fails with `UnalignedFlashWriteAddress` and a misaligned
length with `UnalignedPhraseLength`, both with an empty trace (no transport
call); when both are aligned the trace is exactly that of `program_page` and
a nonzero status is tagged `ProgramPhrase(code, addr)`. -/
theorem c6_program_phrase (algo : FlashAlgorithm) (region : FlashRegion)
    (address : Nat) (bytes : List Nat) (status : Nat)
    (hmin : algo.min_program_length.getD region.page_size ≠ 0)
    (hlen : bytes.length < U32_MOD) :
    (address % algo.min_program_length.getD region.page_size ≠ 0 →
      program_phrase algo region address bytes status
        = ([], Outcome.err FlasherError.UnalignedFlashWriteAddress)) ∧
    (address % algo.min_program_length.getD region.page_size = 0 →
      bytes.length % algo.min_program_length.getD region.page_size ≠ 0 →
      program_phrase algo region address bytes status
        = ([], Outcome.err FlasherError.UnalignedPhraseLength)) ∧
    (address % algo.min_program_length.getD region.page_size = 0 →
      bytes.length % algo.min_program_length.getD region.page_size = 0 →
      (program_phrase algo region address bytes status).1
          = (program_page algo address bytes status).1 ∧
      ((program_phrase algo region address bytes status).2
          = Outcome.err (FlasherError.ProgramPhrase status address) ↔ status ≠ 0) ∧
      (status = 0 → (program_phrase algo region address bytes status).2 = Outcome.ok)) := by
  have hmod : bytes.length % U32_MOD = bytes.length := Nat.mod_eq_of_lt hlen
  refine ⟨?_, ?_, ?_⟩
  · intro ha; simp [program_phrase, hmin, ha]
  · intro ha hb; simp [program_phrase, hmin, ha, hmod, hb]
  · intro ha hb
    refine ⟨?_, ?_, ?_⟩
    · simp [program_phrase, program_page, hmin, ha, hmod, hb]
    · by_cases hs : status = 0 <;> simp [program_phrase, call_function_and_wait,
        wait_for_completion, hmin, ha, hmod, hb, hs]
    · intro hs; simp [program_phrase, call_function_and_wait, wait_for_completion,
        hmin, ha, hmod, hb, hs]

/-- C6 witness: with the default page size 0x400 as minimum unit, address 4 is
misaligned and fails with `UnalignedFlashWriteAddress` and no transport call. -/
theorem c6_witness :
    program_phrase baseAlgo region0 4 [] 0
      = ([], Outcome.err FlasherError.UnalignedFlashWriteAddress) :=
  (c6_program_phrase baseAlgo region0 4 [] 0 (by decide) (by decide)).1 (by decide)

/-- C7: `erase_all` without a `pc_erase_all` entry fails with
`EraseAllNotSupported` and an empty trace (no transport call); with an entry
point it is invoked with no argument registers (no R0..R3 write appears), and
a nonzero status fails with `EraseAll(code)`, zero succeeds. -/
theorem c7_erase_all (algo : FlashAlgorithm) (status : Nat) :
    (algo.pc_erase_all = none →
      erase_all algo status = ([], Except.error FlasherError.EraseAllNotSupported)) ∧
    (∀ pc, algo.pc_erase_all = some pc →
      Event.writeCoreReg Reg.PC pc ∈ (erase_all algo status).1 ∧
      (∀ v, Event.writeCoreReg Reg.R0 v ∉ (erase_all algo status).1) ∧
      (∀ v, Event.writeCoreReg Reg.R1 v ∉ (erase_all algo status).1) ∧
      (∀ v, Event.writeCoreReg Reg.R2 v ∉ (erase_all algo status).1) ∧
      (∀ v, Event.writeCoreReg Reg.R3 v ∉ (erase_all algo status).1) ∧
      ((erase_all algo status).2 = Except.error (FlasherError.EraseAll status) ↔
        status ≠ 0) ∧
      (status = 0 → (erase_all algo status).2 = Except.ok ())) := by
  refine ⟨?_, ?_⟩
  · intro h; simp [erase_all, h]
  · intro pc h
    simp only [erase_all, h, call_function_and_wait, wait_for_completion]
    refine ⟨?_, ?_, ?_, ?_, ?_, ?_, ?_⟩
    · simp [List.mem_append, mem_call_function]
    · intro v; simp [List.mem_append, mem_call_function]
    · intro v; simp [List.mem_append, mem_call_function]
    · intro v; simp [List.mem_append, mem_call_function]
    · intro v; simp [List.mem_append, mem_call_function]
    · by_cases hs : status = 0 <;> simp [hs]
    · intro hs; simp [hs]

/-- C7 witness: `baseAlgo` has no `pc_erase_all`, so `erase_all` fails with
`EraseAllNotSupported` and an empty trace. -/
theorem c7_witness :
    erase_all baseAlgo 3 = ([], Except.error FlasherError.EraseAllNotSupported) :=
  (c7_erase_all baseAlgo 3).1 rfl

/-- Folding the RTT reads raises the flag exactly when some payload is
non-empty. -/
theorem poll_rtt_foldl_fst (reads : List RttRead) (b : Bool) (out : List Nat) :
    (reads.foldl (fun acc r => (acc.1 || !r.data.isEmpty, acc.2 ++ r.data)) (b, out)).1
      = (b || reads.any fun r => !r.data.isEmpty) := by
  induction reads generalizing b out with
  | nil => simp
  | cons r rs ih => simp [ih, Bool.or_assoc]

/-- C8: a non-exiting iteration of the supervision loop (exit flag low, core
not halted) sleeps 1 ms exactly when this iteration's RTT poll produced at
least one non-empty payload and 100 ms otherwise; moreover those are the only
sleeps any iteration can perform. -/
theorem c8_adaptive_sleep (rtta : Option (List RttRead)) :
    run_loop_iteration false rtta false
        = IterStep.sleep (if (poll_rtt rtta).1 then 1 else 100) ∧
    ((poll_rtt rtta).1 = true ↔
      ∃ reads, rtta = some reads ∧ ∃ r ∈ reads, r.data ≠ []) ∧
    (∀ exitFlag coreHalted ms,
      run_loop_iteration exitFlag rtta coreHalted = IterStep.sleep ms →
      ms = if (poll_rtt rtta).1 then 1 else 100) := by
  refine ⟨?_, ?_, ?_⟩
  · by_cases hd : (poll_rtt rtta).1 <;> simp [run_loop_iteration, hd]
  · cases rtta with
    | none => simp [poll_rtt]
    | some reads =>
      simp [poll_rtt, poll_rtt_foldl_fst, List.any_eq_true, List.isEmpty_iff]
  · intro exitFlag coreHalted ms h
    cases exitFlag <;> cases coreHalted <;>
      by_cases hd : (poll_rtt rtta).1 <;>
      simp [run_loop_iteration, hd] at h ⊢ <;> omega

/-- C10: when `min_program_length` is absent and `page_size = 0` (or the
minimum is `Some 0`), the alignment check of `program_phrase` takes a
remainder by zero and the call panics before any transport call: a nonzero
minimum unit is an unstated precondition. -/
theorem c10_program_phrase_min_zero (algo : FlashAlgorithm) (region : FlashRegion)
    (address : Nat) (bytes : List Nat) (status : Nat)
    (h : algo.min_program_length.getD region.page_size = 0) :
    program_phrase algo region address bytes status = ([], Outcome.panic) := by
  simp [program_phrase, h]

/-- C10 witness: `baseAlgo` (no `min_program_length`) over a region with
`page_size = 0` panics. -/
theorem c10_witness :
    program_phrase baseAlgo
      { range_start := 0x08000000, range_end := 0x08100000,
        sector_size := 0x1000, page_size := 0 } 0x08001000 [1, 2, 3] 0
      = ([], Outcome.panic) :=
  c10_program_phrase_min_zero baseAlgo
    { range_start := 0x08000000, range_end := 0x08100000,
      sector_size := 0x1000, page_size := 0 } 0x08001000 [1, 2, 3] 0 (by decide)

end ProbeRs
